import Mathlib

/-!
Verification of the Swift-to-C++ error-transport layer demonstrated by the
`division` example.

The Swift side (Example.swift, shown in the README and in the repository's
Swift source) declares a closed error enumeration `DivByZero` and a throwing
function `division(_:_:) -> Float`.  The generated C++ shim (README, listing
of `Functions::division`) calls the Swift entry point with an out-of-band
error slot and, depending on whether C++ exceptions are enabled, either
throws a `Swift::Error` carrier or returns a `Swift::Expected<float>`
discriminated union.

Swift `Int` is a 64-bit two's-complement integer on the demonstrated
platform, its `/` operator truncates toward zero, and it traps (fatal
runtime error, no value and no thrown error) when the divisor is zero or
when the quotient overflows, i.e. at `Int.min / -1`.  The embedding below
models the Swift function, the two shim modes, the type-erased carrier and
the `Expected` container explicitly, with machine integers as `Int`
together with the 64-bit range predicate `inI64`.
-/

/-- Smallest value of Swift `Int` (64-bit two's complement). -/
def intMin64 : Int := -(2 ^ 63)

/-- Largest value of Swift `Int` (64-bit two's complement). -/
def intMax64 : Int := 2 ^ 63 - 1

/-- The value `x` is representable as a Swift `Int` (64-bit). -/
def inI64 (x : Int) : Prop := intMin64 ≤ x ∧ x ≤ intMax64

instance (x : Int) : Decidable (inI64 x) := by
  unfold inI64; infer_instance

/-- The Swift error domain `DivByZero` from Example.swift: a closed
enumeration with the two cases `divisorIsZero` and `bothAreZero`. -/
inductive DivByZero where
  | divisorIsZero
  | bothAreZero
deriving DecidableEq, Repr

/-- Outcome of one invocation of the Swift function `division`: a normal
return carrying the truncated integer quotient that is widened to `Float`,
a thrown `DivByZero` case, or a runtime trap (Swift fatal error on signed
overflow, which produces neither a value nor an error). -/
inductive DivOutcome where
  | ok (q : Int)
  | err (e : DivByZero)
  | trap
deriving DecidableEq, Repr

/-- The Swift function `division(_ a: Int, _ b: Int) throws -> Float` from
Example.swift: if both operands are zero it throws `bothAreZero`; else if
the divisor is zero it throws `divisorIsZero`; else it returns
`Float(a / b)`.  Swift `/` on `Int` truncates toward zero and traps on
overflow, which for nonzero `b` happens exactly at `a = Int.min, b = -1`;
the success payload is recorded as the integer quotient `a.tdiv b`, the
value that the cast to `Float` widens. -/
def division (a b : Int) : DivOutcome :=
  if a = 0 ∧ b = 0 then
    .err .bothAreZero
  else if b = 0 then
    .err .divisorIsZero
  else if a = intMin64 ∧ b = -1 then
    .trap
  else
    .ok (a.tdiv b)

/-- Modelled from the spec: a second error domain unrelated to `DivByZero`,
standing for an arbitrary "UnrelatedDomain" used by the downcast-mismatch
contract (`carrier.as<UnrelatedDomain>()` must be absent).  The repository
declares only the `DivByZero` domain, so one extra domain is introduced to
state that contract. -/
inductive OtherError where
  | someCase
deriving DecidableEq, Repr

/-- Modelled from the spec: the type-erased `Swift::Error` carrier (the
class itself is defined in the generated header, not in the repository).
Per the spec it is a runtime-checked box holding exactly one error value of
exactly one domain, with enough runtime type information to answer whether
the contents belong to a requested domain; it is never empty.  The shim in
this repository only ever boxes `DivByZero` cases, but the carrier type
itself can hold any domain. -/
inductive Carrier where
  | divByZero (e : DivByZero)
  | other (e : OtherError)
deriving DecidableEq, Repr

/-- Modelled from the spec: `carrier.as<DivByZero>()` — compares the
carrier's runtime-recorded domain against `DivByZero` and returns a present
optional holding the boxed case on a match, an absent optional otherwise
(never an exception, never a crash). -/
def Carrier.asDivByZero : Carrier → Option DivByZero
  | .divByZero e => some e
  | .other _ => none

/-- Modelled from the spec: `carrier.as<UnrelatedDomain>()` for the second
domain `OtherError` — same runtime domain check, against `OtherError`. -/
def Carrier.asOther : Carrier → Option OtherError
  | .divByZero _ => none
  | .other e => some e

/-- Modelled from the spec: one observable call of `as<DivByZero>()` on a
carrier, returning the optional result together with the carrier as it
stands after the call; the method reads the carrier and must never mutate
it, so the post-call carrier is the carrier itself. -/
def Carrier.asDivByZeroCall (c : Carrier) : Option DivByZero × Carrier :=
  (c.asDivByZero, c)

/-- Modelled from the spec: one observable call of `as<UnrelatedDomain>()`
(domain `OtherError`) on a carrier, with the carrier state after the call. -/
def Carrier.asOtherCall (c : Carrier) : Option OtherError × Carrier :=
  (c.asOther, c)

/-- Modelled from the spec: `Swift::Expected<T>` (`Result<T>`), defined in
the generated header — a discriminated union holding exactly one of a
success value of type `T` or an error carrier, never both, never neither. -/
inductive Expected (α : Type) where
  | value (v : α)
  | error (c : Carrier)
deriving DecidableEq

/-- Modelled from the spec: `has_value()` on `Swift::Expected<T>` — a query
that never fails and reports which alternative is present. -/
def Expected.has_value {α : Type} : Expected α → Bool
  | .value _ => true
  | .error _ => false

/-- Result of a checked extraction from `Expected`: the extracted datum, or
a fatal contract violation (trap/abort) on misuse. -/
inductive FatalOr (α : Type) where
  | ok (v : α)
  | fatal
deriving DecidableEq

/-- Modelled from the spec: `value()` on `Swift::Expected<T>` — precondition
`has_value()`; calling it on an error-holding result is a programming-error
condition that is fatal rather than silently yielding a default value. -/
def Expected.valueChecked {α : Type} : Expected α → FatalOr α
  | .value v => .ok v
  | .error _ => .fatal

/-- Modelled from the spec: `error()` on `Swift::Expected<T>` — precondition
`¬ has_value()`; calling it on a value-holding result is fatal. -/
def Expected.errorChecked {α : Type} : Expected α → FatalOr Carrier
  | .value _ => .fatal
  | .error c => .ok c

/-- Outcome of invoking the shim with C++ exceptions enabled (unwinding
mode): a plain return value, a thrown carrier, or a trap propagated from
the Swift callee. -/
inductive UnwindCall (α : Type) where
  | ret (v : α)
  | thrown (c : Carrier)
  | trap
deriving DecidableEq

/-- Outcome of invoking the shim with C++ exceptions disabled (Result
mode): a returned `Expected`, or a trap propagated from the Swift callee. -/
inductive ResultCall (α : Type) where
  | ret (r : Expected α)
  | trap
deriving DecidableEq

/-- The generated C++ shim `Functions::division` (README listing), compiled
with `__cpp_exceptions` defined: it invokes the Swift entry point with an
error slot; if the slot was written it throws `Swift::Error(opaqueError)`,
otherwise it returns the value.  A trap in the callee never returns to the
shim. -/
def divisionUnwind (a b : Int) : UnwindCall Int :=
  match division a b with
  | .ok q => .ret q
  | .err e => .thrown (.divByZero e)
  | .trap => .trap

/-- The generated C++ shim `Functions::division` (README listing), compiled
without exceptions: the same body, but the error slot is wrapped as
`Swift::Expected<float>(Swift::Error(opaqueError))` and the value as
`Swift::Expected<float>(returnValue)`.  A trap in the callee never returns
to the shim. -/
def divisionResult (a b : Int) : ResultCall Int :=
  match division a b with
  | .ok q => .ret (.value q)
  | .err e => .ret (.error (.divByZero e))
  | .trap => .trap

example : division 4 2 = .ok 2 := by decide
example : division 1 0 = .err .divisorIsZero := by decide
example : division 0 0 = .err .bothAreZero := by decide
example : division (-7) 2 = .ok (-3) := by decide
example : division intMin64 (-1) = .trap := by decide

/-- Claim C1 (counterexample): the claim as stated fails at the in-range
operands `a = Int.min`, `b = -1`: the divisor is nonzero, yet `division`
traps on signed-overflow instead of succeeding with the truncated
quotient. -/
theorem C1_counterexample :
    inI64 intMin64 ∧ inI64 (-1) ∧ (-1 : Int) ≠ 0 ∧
    division intMin64 (-1) = DivOutcome.trap ∧
    division intMin64 (-1) ≠ DivOutcome.ok (Int.tdiv intMin64 (-1)) := by
  decide

/-- Claim C1 (amended): for every pair of in-range integer operands
`(a, b)` with `b ≠ 0`, except the overflowing pair `(Int.min, -1)`,
`division` succeeds and its success value is the truncating integer
quotient of `a` by `b` (the value widened to floating point); in
particular `division 4 2` succeeds with quotient `2`, i.e. `2.0`. -/
theorem C1_division_succeeds :
    (∀ a b : Int, inI64 a → inI64 b → b ≠ 0 → ¬(a = intMin64 ∧ b = -1) →
      division a b = DivOutcome.ok (a.tdiv b)) ∧
    division 4 2 = DivOutcome.ok 2 := by
  refine ⟨fun a b _ _ hb hover => ?_, by decide⟩
  unfold division
  rw [if_neg fun h => hb h.2, if_neg hb, if_neg hover]

/-- Claim C1 (witness): the amended theorem applied at `a = 4`, `b = 2`. -/
theorem C1_division_succeeds_witness :
    division 4 2 = DivOutcome.ok (Int.tdiv 4 2) :=
  C1_division_succeeds.1 4 2 (by decide) (by decide) (by decide) (by decide)

/-- Claim C2: whenever both operands are zero, the call fails with the
case `bothAreZero`, in unwinding mode (a thrown carrier boxing it) and in
Result mode (the error alternative boxing it). -/
theorem C2_both_zero_fails :
    ∀ a b : Int, a = 0 → b = 0 →
      divisionUnwind a b =
        UnwindCall.thrown (Carrier.divByZero DivByZero.bothAreZero) ∧
      divisionResult a b =
        ResultCall.ret (Expected.error (Carrier.divByZero DivByZero.bothAreZero)) := by
  rintro _ _ rfl rfl
  exact ⟨rfl, rfl⟩

/-- Claim C2 (witness): the theorem applied at `a = 0`, `b = 0`. -/
theorem C2_both_zero_fails_witness :
    divisionUnwind 0 0 =
      UnwindCall.thrown (Carrier.divByZero DivByZero.bothAreZero) ∧
    divisionResult 0 0 =
      ResultCall.ret (Expected.error (Carrier.divByZero DivByZero.bothAreZero)) :=
  C2_both_zero_fails 0 0 rfl rfl

/-- Claim C3: whenever the dividend is nonzero and the divisor is zero,
the call fails with the case `divisorIsZero`, in both modes. -/
theorem C3_divisor_zero_fails :
    ∀ a b : Int, a ≠ 0 → b = 0 →
      divisionUnwind a b =
        UnwindCall.thrown (Carrier.divByZero DivByZero.divisorIsZero) ∧
      divisionResult a b =
        ResultCall.ret (Expected.error (Carrier.divByZero DivByZero.divisorIsZero)) := by
  rintro a _ ha rfl
  have h : division a 0 = DivOutcome.err DivByZero.divisorIsZero := by
    unfold division
    rw [if_neg fun h => ha h.1, if_pos rfl]
  refine ⟨?_, ?_⟩ <;> simp [divisionUnwind, divisionResult, h]

/-- Claim C3 (witness): the theorem applied at `a = 1`, `b = 0`. -/
theorem C3_divisor_zero_fails_witness :
    divisionUnwind 1 0 =
      UnwindCall.thrown (Carrier.divByZero DivByZero.divisorIsZero) ∧
    divisionResult 1 0 =
      ResultCall.ret (Expected.error (Carrier.divByZero DivByZero.divisorIsZero)) :=
  C3_divisor_zero_fails 1 0 (by decide) rfl

/-- Claim C4: for identical inputs the two shim modes agree outcome for
outcome — a plain return in unwinding mode corresponds exactly to a
value-holding `Expected` in Result mode, a thrown carrier corresponds
exactly to the same carrier in the error alternative, and a callee trap
corresponds to a callee trap; only the delivery mechanism differs. -/
theorem C4_mode_equivalence :
    ∀ a b : Int,
      (∀ v : Int, divisionUnwind a b = UnwindCall.ret v ↔
        divisionResult a b = ResultCall.ret (Expected.value v)) ∧
      (∀ c : Carrier, divisionUnwind a b = UnwindCall.thrown c ↔
        divisionResult a b = ResultCall.ret (Expected.error c)) ∧
      (divisionUnwind a b = UnwindCall.trap ↔
        divisionResult a b = ResultCall.trap) := by
  intro a b
  unfold divisionUnwind divisionResult
  rcases division a b with q | e | _ <;> simp

/-- Claim C5: every failure delivered by the shim — thrown in unwinding
mode or carried in a Result — boxes a `DivByZero` case, and on that
carrier the downcast to the correct domain is present and equal to the
original case while the downcast to the unrelated domain is absent. -/
theorem C5_roundtrip :
    ∀ (a b : Int) (c : Carrier),
      (divisionUnwind a b = UnwindCall.thrown c ∨
        divisionResult a b = ResultCall.ret (Expected.error c)) →
      ∃ e : DivByZero, c = Carrier.divByZero e ∧
        c.asDivByZero = some e ∧ c.asOther = none := by
  intro a b c h
  unfold divisionUnwind divisionResult at h
  have hc : ∃ e, c = Carrier.divByZero e := by
    rcases hd : division a b with q | e | _ <;> rw [hd] at h <;>
      rcases h with h | h <;> simp at h
    · exact ⟨_, h.symm⟩
    · exact ⟨_, h.symm⟩
  obtain ⟨e, rfl⟩ := hc
  exact ⟨e, rfl, rfl, rfl⟩

/-- Claim C5 (witness): the theorem applied to the failure produced by
`division 1 0` in unwinding mode. -/
theorem C5_roundtrip_witness :
    ∃ e : DivByZero,
      Carrier.divByZero DivByZero.divisorIsZero = Carrier.divByZero e ∧
      (Carrier.divByZero DivByZero.divisorIsZero).asDivByZero = some e ∧
      (Carrier.divByZero DivByZero.divisorIsZero).asOther = none :=
  C5_roundtrip 1 0 (Carrier.divByZero DivByZero.divisorIsZero)
    (Or.inl (by decide))

/-- Claim C6: calling `as` twice on the same carrier — for the `DivByZero`
domain and for the unrelated domain — returns the same optional both
times, and the call leaves the carrier exactly as it was (no mutation, no
invalidation). -/
theorem C6_as_idempotent :
    ∀ c : Carrier,
      (c.asDivByZeroCall.2.asDivByZeroCall.1 = c.asDivByZeroCall.1 ∧
        c.asDivByZeroCall.2 = c) ∧
      (c.asOtherCall.2.asOtherCall.1 = c.asOtherCall.1 ∧
        c.asOtherCall.2 = c) :=
  fun _ => ⟨⟨rfl, rfl⟩, ⟨rfl, rfl⟩⟩

/-- Claim C7 (counterexample): at the in-range operands `a = Int.min`,
`b = -1` the invocation of the shim traps — it returns no `Expected` at
all, so that invocation produces neither a success value nor an error. -/
theorem C7_counterexample :
    divisionResult intMin64 (-1) = ResultCall.trap ∧
    ¬ ∃ r : Expected Int, divisionResult intMin64 (-1) = ResultCall.ret r := by
  refine ⟨by decide, ?_⟩
  rintro ⟨r, hr⟩
  rw [show divisionResult intMin64 (-1) = ResultCall.trap from by decide] at hr
  exact ResultCall.noConfusion hr

/-- Claim C7 (amended): every `Result` holds exactly one of a success
value or an error carrier — never both and never neither — and every
invocation of the Call Shim that returns (the callee did not trap)
produces exactly one of success value or error. -/
theorem C7_result_exactly_one :
    (∀ r : Expected Int,
      (r.has_value = true ∧ (∃ v, r = Expected.value v) ∧
        ∀ c, r ≠ Expected.error c) ∨
      (r.has_value = false ∧ (∃ c, r = Expected.error c) ∧
        ∀ v, r ≠ Expected.value v)) ∧
    (∀ a b : Int, divisionResult a b ≠ ResultCall.trap →
      ∃ r, divisionResult a b = ResultCall.ret r) := by
  constructor
  · intro r
    rcases r with v | c
    · exact Or.inl ⟨rfl, ⟨v, rfl⟩, fun c h => Expected.noConfusion h⟩
    · exact Or.inr ⟨rfl, ⟨c, rfl⟩, fun v h => Expected.noConfusion h⟩
  · intro a b h
    unfold divisionResult at *
    revert h
    rcases division a b with q | e | _ <;> intro h
    · exact ⟨_, rfl⟩
    · exact ⟨_, rfl⟩
    · exact absurd rfl h

/-- Claim C7 (witness): the amended theorem applied at `a = 0`, `b = 0`,
whose invocation returns. -/
theorem C7_result_exactly_one_witness :
    ∃ r, divisionResult 0 0 = ResultCall.ret r :=
  C7_result_exactly_one.2 0 0 (by decide)

/-- Claim C8: extracting the value out of an error-holding `Result`, or
the error out of a value-holding one, is a contract violation that is
fatal — it never silently yields a default datum. -/
theorem C8_misuse_fatal :
    ∀ (α : Type) (r : Expected α),
      (r.has_value = false → r.valueChecked = FatalOr.fatal) ∧
      (r.has_value = true → r.errorChecked = FatalOr.fatal) := by
  intro α r
  rcases r with v | c <;>
    simp [Expected.has_value, Expected.valueChecked, Expected.errorChecked]

/-- Claim C8 (witness): the theorem applied to the error-holding result
produced by `division 0 0` and to the value-holding result produced by
`division 4 2`. -/
theorem C8_misuse_fatal_witness :
    (Expected.error (Carrier.divByZero DivByZero.bothAreZero) :
        Expected Int).valueChecked = FatalOr.fatal ∧
    (Expected.value (2 : Int)).errorChecked = FatalOr.fatal :=
  ⟨(C8_misuse_fatal Int
      (Expected.error (Carrier.divByZero DivByZero.bothAreZero))).1 (by decide),
    (C8_misuse_fatal Int (Expected.value 2)).2 (by decide)⟩

/-- Claim C9: at `a = Int.min`, `b = -1` — in-range operands with a
nonzero divisor — the integer division overflows the Swift `Int` type and
the operation traps, so the call produces neither a success value nor a
`DivByZero` error, in either shim mode. -/
theorem C9_overflow_trap :
    inI64 intMin64 ∧ inI64 (-1) ∧ (-1 : Int) ≠ 0 ∧
    division intMin64 (-1) = DivOutcome.trap ∧
    divisionUnwind intMin64 (-1) = UnwindCall.trap ∧
    divisionResult intMin64 (-1) = ResultCall.trap := by
  decide

/-- Claim C10: the division operation is deterministic — two invocations
with equal arguments produce the same outcome, as the Swift function and
as either shim mode. -/
theorem C10_deterministic :
    ∀ a b a' b' : Int, a = a' → b = b' →
      division a b = division a' b' ∧
      divisionUnwind a b = divisionUnwind a' b' ∧
      divisionResult a b = divisionResult a' b' := by
  rintro a b _ _ rfl rfl
  exact ⟨rfl, rfl, rfl⟩

/-- Claim C10 (witness): the theorem applied at two invocations of
`division 4 2`. -/
theorem C10_deterministic_witness :
    division 4 2 = division 4 2 ∧
    divisionUnwind 4 2 = divisionUnwind 4 2 ∧
    divisionResult 4 2 = divisionResult 4 2 :=
  C10_deterministic 4 2 4 2 rfl rfl
